import Mathlib

/-!
Verification development for the Metadata Matching & Enrichment Engine of
PAY_APP_SETUP (src/pay_app_setup.py).

The Python source is shallowly embedded: dictionaries become association
lists (keys unique where the source builds them from `dict`), pandas grids
become `List (List String)` with missing cells read as `""` (pandas pads
ragged input with NaN, which the source filters with its "nan" checks, so
the observable behaviour coincides), and Python float ratios are modelled
as exact rationals (the claims settled here depend only on the integer
first component of the score tuple, which Python also compares exactly).
Python string operations are modelled at the character-list level:
`x in s` is substring containment, `str.strip` removes leading/trailing
whitespace, `str.lower` lower-cases (headers and keywords are ASCII).
-/

/-- Model of Python `pat in s` (substring containment): does `pat` occur
inside `hay` as a contiguous run? -/
def startsWithChars : List Char → List Char → Bool
  | _, [] => true
  | [], _ :: _ => false
  | a :: as, b :: bs => a == b && startsWithChars as bs

def containsChars : List Char → List Char → Bool
  | [], pat => pat.isEmpty
  | a :: as, pat => startsWithChars (a :: as) pat || containsChars as pat

def strContains (s pat : String) : Bool :=
  containsChars s.toList pat.toList

/-- Model of Python `str.endswith`. -/
def strEndsWith (s suffix : String) : Bool :=
  startsWithChars s.toList.reverse suffix.toList.reverse

/-- Model of Python `str.startswith`. -/
def strStartsWith (s p : String) : Bool :=
  startsWithChars s.toList p.toList

/-- Model of Python `str.lower` (ASCII). -/
def strToLower (s : String) : String :=
  String.mk (s.toList.map Char.toLower)

/-- Model of Python `str.strip`: drop leading and trailing whitespace. -/
def strStrip (s : String) : String :=
  String.mk (((s.toList.dropWhile Char.isWhitespace).reverse.dropWhile Char.isWhitespace).reverse)

/-- `_normalise_property_name` from pay_app_setup.py: keep the part after the
last dot, drop hyphens, underscores and spaces, and lower-case. -/
def _normalise_property_name (col : String) : String :=
  let cs := (col.toList.splitOn '.').getLastD []
  String.mk ((cs.filter (fun c => ¬ (c = '-' ∨ c = '_' ∨ c = ' '))).map Char.toLower)

/-- A property entry parsed from the metadata dictionary (all attributes are
strings; missing attributes default to `""`). -/
structure PropertyEntry where
  entity_type : String
  name : String
  type : String
  required : String
  max_length : String
  label : String
deriving DecidableEq, Repr

/-- `TYPE_MAP` from pay_app_setup.py. -/
def TYPE_MAP : List (String × String) :=
  [("Edm.String", "string"), ("Edm.Decimal", "float"), ("Edm.DateTime", "date"),
   ("Edm.DateTimeOffset", "date"), ("Edm.Int64", "integer"), ("Edm.Int32", "integer"),
   ("Edm.Int16", "integer"), ("Edm.Byte", "integer"), ("Edm.Boolean", "boolean"),
   ("Edm.Double", "float"), ("Edm.Single", "float"), ("Edm.Binary", "binary"),
   ("Edm.Time", "time")]

/-- `friendly_type` from pay_app_setup.py. -/
def friendly_type (edm_type : String) : String :=
  match List.lookup edm_type TYPE_MAP with
  | some t => t
  | none => if strStartsWith edm_type "SFOData." = true then "picklist" else edm_type

def _METADATA_ENTITY_SUFFIXES : List String :=
  ["Permissions", "Permission", "FieldControls"]

def COUNTRY_CODES : List String :=
  ["GBR", "USA", "DEU", "FRA", "AUS", "CAN", "JPN", "NLD", "ESP", "ITA",
   "BRA", "MEX", "IND", "SGP", "ZAF", "NZL", "ARE", "KWT", "PER", "SAU",
   "CHN", "HKG", "KOR", "MYS", "THA", "PHL", "IDN", "COL", "CHL", "ARG",
   "POL", "CZE", "TUN", "EGY", "ISR", "RUS", "SVK", "SVN"]

def _IDENTITY_NORMS : List String := ["userid", "personidexternal"]

def _IDENTITY_LABELS : List (String × String) :=
  [("userid", "User ID"), ("personidexternal", "Person ID External")]

/-- The canonical display string forced onto an identity column. -/
def identityLabelFor (k : String) : String :=
  (List.lookup k _IDENTITY_LABELS).getD ""

def _OPERATION_NORM : String := "operation"

def _DURATION_KEYWORDS : List String :=
  ["duration", "period", "lengthofservice", "tenure", "probation",
   "probationperiod", "noticperiod", "noticeperiod", "servicedate"]

def _MAX_PICKLIST_VALUES : Nat := 20

def _PICKLIST_SUBSTRINGS : List String :=
  ["gender", "salutation", "marital", "legalentity",
   "employmenttype", "employeeclass", "employeetype", "contingent",
   "timezone", "country", "nationality", "addresstype", "isprimary",
   "currency", "frequency", "paygroup", "holidaycalendar",
   "eventreason", "eventtype", "contracttype",
   "costcenter", "division", "department", "businessunit",
   "location", "jobcode", "jobtitle", "jobfamily", "joblevel",
   "timetype", "workschedule", "payscale",
   "locale", "status"]

def _NON_PICKLIST_SUBSTRINGS : List String :=
  ["firstname", "lastname", "middlename", "preferredname",
   "formalname", "suffixname",
   "address1", "address2", "address3", "addressline", "street",
   "city", "postcode", "postalcode", "zipcode",
   "emailaddress", "phone", "fax",
   "nationalid", "nino", "passport",
   "sequencenumber", "description", "comments", "remark"]

/-- `_is_duration_column` from pay_app_setup.py. -/
def _is_duration_column (norm_key : String) : Bool :=
  _DURATION_KEYWORDS.any (fun kw => strContains norm_key kw)

/-- `_is_picklist_column` from pay_app_setup.py. -/
def _is_picklist_column (norm_key : String) (friendly_type_val : String) : Bool :=
  if friendly_type_val = "picklist" then true
  else if friendly_type_val = "date" ∨ friendly_type_val = "time" ∨
          friendly_type_val = "float" ∨ friendly_type_val = "integer" ∨
          friendly_type_val = "boolean" then false
  else if friendly_type_val = "string" then
    if _NON_PICKLIST_SUBSTRINGS.any (fun kw => strContains norm_key kw) then false
    else _PICKLIST_SUBSTRINGS.any (fun kw => strContains norm_key kw)
  else false

/-- The scanning loop of `_extract_picklist_values`: walk the data rows, read
the cell at `column_index` when the row is long enough, collect distinct
non-blank stripped values into `seen`, and stop as soon as `max_values` have
been collected (Python appends, then checks `len(seen) >= max_values` and
breaks). -/
def extractLoop (column_index max_values : Nat) : List (List String) → List String → List String
  | [], seen => seen
  | row :: rest, seen =>
    match row.get? column_index with
    | some cell =>
      let val := strStrip cell
      if val ≠ "" ∧ ¬ val ∈ seen then
        if max_values ≤ (seen ++ [val]).length then seen ++ [val]
        else extractLoop column_index max_values rest (seen ++ [val])
      else extractLoop column_index max_values rest seen
    | none => extractLoop column_index max_values rest seen

/-- `_extract_picklist_values` from pay_app_setup.py (the `max_values`
parameter defaults to `_MAX_PICKLIST_VALUES` at every call site). -/
def _extract_picklist_values (column_index : Nat) (data_rows : List (List String)) (max_values : Nat) : String :=
  String.intercalate ", " (extractLoop column_index max_values data_rows [])

/-- The template's normalized header-key set
(`norm_cols = {_normalise_property_name(c) for c in property_names}`);
a Python set is modelled as a duplicate-free list. -/
def normHeaderKeys (property_names : List String) : List String :=
  (property_names.map _normalise_property_name).dedup

/-- `len(norm_cols & et_props.keys())`: the number of distinct property keys
of the entity that occur among the template's normalized header keys. -/
def matchCount (norm_cols : List String) (props : List (String × PropertyEntry)) : Nat :=
  (((props.map Prod.fst).dedup).filter (fun k => decide (k ∈ norm_cols))).length

/-- `len(et_props)`: the number of distinct keys of the per-entity property
dictionary. -/
def dictSize (props : List (String × PropertyEntry)) : Nat :=
  (props.map Prod.fst).dedup.length

/-- `et_name.endswith(_METADATA_ENTITY_SUFFIXES)`. -/
def isMirrorEntity (name : String) : Bool :=
  _METADATA_ENTITY_SUFFIXES.any (fun s => strEndsWith name s)

/-- The match count after the mirror-entity penalty (`match_count // 2` for
names ending with a metadata-mirror suffix). -/
def effectiveMatchCount (norm_cols : List String) (et : String × List (String × PropertyEntry)) : Nat :=
  if isMirrorEntity et.1 then matchCount norm_cols et.2 / 2 else matchCount norm_cols et.2

/-- The country affinity bonus from `find_best_entity_type`. -/
def countryBonus (country name : String) : Int :=
  if country = "" then 0
  else if strEndsWith name country then 1
  else if COUNTRY_CODES.any (fun oc => oc ≠ country && strEndsWith name oc) then -1
  else 0

/-- The score triple `(match_count, ratio, country_bonus)` computed for one
candidate entity type (the Python float ratio
`match_count / max(len(et_props), 1)` is modelled as the exact rational
with that numerator and denominator). -/
def entityScore (norm_cols : List String) (country : String) (et : String × List (String × PropertyEntry)) : Nat × ℚ × Int :=
  (effectiveMatchCount norm_cols et,
   mkRat (effectiveMatchCount norm_cols et) (max (dictSize et.2) 1),
   countryBonus country et.1)

/-- Python's lexicographic strict comparison `score > best_score` on the
triple. -/
def scoreGt (s t : Nat × ℚ × Int) : Bool :=
  decide (t.1 < s.1 ∨ (t.1 = s.1 ∧ (t.2.1 < s.2.1 ∨ (t.2.1 = s.2.1 ∧ t.2.2 < s.2.2))))

/-- One iteration of the candidate loop in `find_best_entity_type`: skip
entities with zero raw match count, otherwise replace the running best when
the score is strictly greater. -/
def findBestStep (norm_cols : List String) (country : String)
    (acc : Option String × Nat × ℚ × Int) (et : String × List (String × PropertyEntry)) :
    Option String × Nat × ℚ × Int :=
  if matchCount norm_cols et.2 = 0 then acc
  else if scoreGt (entityScore norm_cols country et) acc.2 = true then
    (some et.1, entityScore norm_cols country et)
  else acc

/-- `find_best_entity_type` from pay_app_setup.py. The entity dictionary is
an association list in iteration order. -/
def find_best_entity_type (property_names : List String)
    (entity_lookup : List (String × List (String × PropertyEntry))) (country : String) :
    Option String :=
  let r := entity_lookup.foldl (findBestStep (normHeaderKeys property_names) country)
    (none, 0, (0 : ℚ), (0 : Int))
  if 0 < r.2.1 then r.1 else none

/-- `lookup_property` from pay_app_setup.py: prefer the matched entity's own
properties, fall back to the first entry of the global lookup. -/
def lookup_property (column_name : String) (entity_props : Option (List (String × PropertyEntry)))
    (global_lookup : List (String × List PropertyEntry)) : Option PropertyEntry :=
  let key := _normalise_property_name column_name
  match entity_props.bind (fun ep => List.lookup key ep) with
  | some e => some e
  | none => (List.lookup key global_lookup).bind List.head?

/-- `entity_props = entity_lookup.get(best_et) if best_et else None` in
`transform_template`. -/
def matchedEntityProps (property_names : List String)
    (entity_lookup : List (String × List (String × PropertyEntry))) (country : String) :
    Option (List (String × PropertyEntry)) :=
  (find_best_entity_type property_names entity_lookup country).bind
    (fun n => List.lookup n entity_lookup)

/-- The Picklist Values cell of one column in `transform_template`:
populated only for classified picklist columns, with the caller-supplied
override map taking priority over the data-row scan. -/
def picklistCell (norm_key typ : String) (i : Nat) (data_rows : Option (List (List String)))
    (resolved_picklists : Option (List (String × String))) : String :=
  if _is_picklist_column norm_key typ = true then
    match resolved_picklists.bind (fun rp => List.lookup norm_key rp) with
    | some v => v
    | none =>
      match data_rows with
      | some dr => if dr.isEmpty = false then _extract_picklist_values i dr _MAX_PICKLIST_VALUES else ""
      | none => ""
  else ""

/-- The body of the per-header loop in `transform_template`: the
(label, type, mandatory, max length, picklist values) cells for the header at
position `i`. -/
def transformColumn (entity_props : Option (List (String × PropertyEntry)))
    (global_lookup : List (String × List PropertyEntry)) (skip_operation : Bool)
    (data_rows : Option (List (List String))) (resolved_picklists : Option (List (String × String)))
    (i : Nat) (prop_name : String) : String × String × String × String × String :=
  let norm_key := _normalise_property_name prop_name
  if norm_key ∈ _IDENTITY_NORMS then
    ((List.lookup norm_key _IDENTITY_LABELS).getD "", "string", "true", "100", "")
  else if norm_key = _OPERATION_NORM ∧ skip_operation = true then
    ("Operation", "string", "false", "", "")
  else
    match lookup_property prop_name entity_props global_lookup with
    | some meta =>
      let typ0 := friendly_type meta.type
      let typ := if typ0 = "string" ∧ _is_picklist_column norm_key "string" = true then "picklist" else typ0
      let mand := if _is_duration_column norm_key = true then
          (if meta.required = "true" then meta.required else "false")
        else
          (if meta.required ≠ "" then meta.required else "false")
      let ml := if typ = "date" ∨ typ = "time" then "10" else meta.max_length
      ((if meta.label ≠ "" then meta.label else prop_name), typ, mand, ml,
       picklistCell norm_key typ i data_rows resolved_picklists)
    | none =>
      (prop_name, "", "", "", picklistCell norm_key "" i data_rows resolved_picklists)

/-- `for i, prop_name in enumerate(property_names)`: the list of per-column
cell tuples, starting at index `j`. -/
def transformCellsAux (entity_props : Option (List (String × PropertyEntry)))
    (global_lookup : List (String × List PropertyEntry)) (skip_operation : Bool)
    (data_rows : Option (List (List String))) (resolved_picklists : Option (List (String × String)))
    (j : Nat) : List String → List (String × String × String × String × String)
  | [] => []
  | p :: ps =>
    transformColumn entity_props global_lookup skip_operation data_rows resolved_picklists j p ::
      transformCellsAux entity_props global_lookup skip_operation data_rows resolved_picklists (j + 1) ps

def transformCells (property_names : List String) (global_lookup : List (String × List PropertyEntry))
    (entity_lookup : List (String × List (String × PropertyEntry))) (country : String)
    (skip_operation : Bool) (data_rows : Option (List (List String)))
    (resolved_picklists : Option (List (String × String))) :
    List (String × String × String × String × String) :=
  transformCellsAux (matchedEntityProps property_names entity_lookup country) global_lookup
    skip_operation data_rows resolved_picklists 0 property_names

/-- `transform_template` from pay_app_setup.py: the six labelled output rows
(in the fixed export order) together with the matched entity type. -/
def transform_template (filename : String) (property_names descriptions : List String)
    (global_lookup : List (String × List PropertyEntry))
    (entity_lookup : List (String × List (String × PropertyEntry))) (country : String)
    (skip_operation : Bool) (data_rows : Option (List (List String)))
    (resolved_picklists : Option (List (String × String))) :
    List (String × List String) × Option String :=
  ([("Column Name", property_names),
    ("Column Label", (transformCells property_names global_lookup entity_lookup country skip_operation data_rows resolved_picklists).map (fun c => c.1)),
    ("Type", (transformCells property_names global_lookup entity_lookup country skip_operation data_rows resolved_picklists).map (fun c => c.2.1)),
    ("Mandatory", (transformCells property_names global_lookup entity_lookup country skip_operation data_rows resolved_picklists).map (fun c => c.2.2.1)),
    ("Max Length", (transformCells property_names global_lookup entity_lookup country skip_operation data_rows resolved_picklists).map (fun c => c.2.2.2.1)),
    ("Picklist Values", (transformCells property_names global_lookup entity_lookup country skip_operation data_rows resolved_picklists).map (fun c => c.2.2.2.2))],
   find_best_entity_type property_names entity_lookup country)

/-- Positional access to one of the six output rows (row 0 = Column Name,
1 = Column Label, 2 = Type, 3 = Mandatory, 4 = Max Length,
5 = Picklist Values; the labels are proved fixed in the shape theorem). -/
def rowAt (t : List (String × List String) × Option String) (j : Nat) : List String :=
  (t.1.getD j ("", [])).2

/-- The Type cell the per-header loop computes for a non-identity,
non-skipped column: the friendly type of the resolved schema entry, upgraded
from string to picklist by the keyword classifier, or `""` when unresolved. -/
def resolvedTypeFor (entity_props : Option (List (String × PropertyEntry)))
    (global_lookup : List (String × List PropertyEntry)) (prop_name : String) : String :=
  match lookup_property prop_name entity_props global_lookup with
  | some meta =>
    let typ0 := friendly_type meta.type
    if typ0 = "string" ∧ _is_picklist_column (_normalise_property_name prop_name) "string" = true then "picklist" else typ0
  | none => ""

/-- Python `dict` assignment `d[k] = v` on an association list: overwrite in
place, or append when the key is new. -/
def dictInsert (k : String) (v : α) : List (String × α) → List (String × α)
  | [] => [(k, v)]
  | p :: rest => if p.1 = k then (k, v) :: rest else p :: dictInsert k v rest

/-- Python `d.setdefault(k, v)`: insert only when the key is absent. -/
def dictSetdefault (k : String) (v : α) (d : List (String × α)) : List (String × α) :=
  match List.lookup k d with
  | some _ => d
  | none => d ++ [(k, v)]

/-- A cell of a decoded pandas grid; cells beyond a ragged row read as `""`
(pandas pads with NaN, which the source's "nan" checks discard, so blank and
missing cells behave identically). -/
def sheetCell (sheet : List (List String)) (r c : Nat) : String :=
  (sheet.getD r []).getD c ""

/-- The `(code, label)` pairs extracted from a decoded CSV picklist grid: a
header row is skipped when the first cell looks like a column label, and a
row contributes iff its first (code) cell is non-blank and not pandas NaN. -/
def csvPicklistValues (grid : List (List String)) : List (String × String) :=
  let first_cell := strToLower (strStrip (sheetCell grid 0 0))
  let start_row := if first_cell ∈ ["code", "id", "value", "key", "externalcode"] then 1 else 0
  ((List.range grid.length).drop start_row).filterMap (fun r =>
    let code_val := strStrip (sheetCell grid r 0)
    let label_val := strStrip (sheetCell grid r 1)
    if code_val ≠ "" ∧ strToLower code_val ≠ "nan" then
      some (code_val, if label_val ≠ "" ∧ strToLower label_val ≠ "nan" then label_val else "")
    else none)

/-- The CSV branch of `parse_picklist_reference`, applied to the decoded
grid; `base_name` is the filename without extension (the caller owns
path handling). Returns `(picklist_tables, col_to_picklist)`. -/
def parse_picklist_reference_csv (base_name : String) (grid : List (List String)) :
    List (String × List (String × String)) × List (String × String) :=
  let picklist_name := if strStrip base_name ≠ "" then strStrip base_name else "Picklist"
  if grid.length < 1 then ([], [])
  else
    (if csvPicklistValues grid ≠ [] then [(picklist_name, csvPicklistValues grid)] else [], [])

/-- Row-1 scan for `Code` marker cells: the `(column, display name)` pairs of
the lookup tables of one `(Data)` sheet. -/
def sheetTablePositions (row0 row1 : List String) : List (Nat × String) :=
  row1.enum.filterMap (fun p =>
    if strToLower (strStrip p.2) = "code" then
      let display_name := strStrip (row0.getD p.1 "")
      if display_name ≠ "" ∧ strToLower display_name ≠ "nan" then some (p.1, display_name) else none
    else none)

/-- The `(code, label)` pairs of the lookup table starting at `code_col`
(data rows are rows 2 and later; a row contributes iff its code cell is
non-blank and not pandas NaN). -/
def tableValuesAt (sheet : List (List String)) (code_col : Nat) : List (String × String) :=
  ((List.range sheet.length).drop 2).filterMap (fun r =>
    let code_val := strStrip (sheetCell sheet r code_col)
    let label_val := strStrip (sheetCell sheet r (code_col + 1))
    if code_val ≠ "" ∧ strToLower code_val ≠ "nan" then
      some (code_val, if label_val ≠ "" ∧ strToLower label_val ≠ "nan" then label_val else "")
    else none)

/-- The per-table loop of one `(Data)` sheet: build the sheet-local table
dictionary (overwrite on duplicate display name) while `setdefault`-merging
each non-empty table into the accumulated tables (first occurrence across
sheets wins). -/
def sheetTablesFold (sheet : List (List String)) :
    List (Nat × String) →
    List (String × List (String × String)) × List (String × List (String × String)) →
    List (String × List (String × String)) × List (String × List (String × String))
  | [], stpt => stpt
  | p :: rest, stpt =>
    let values := tableValuesAt sheet p.1
    if values ≠ [] then
      sheetTablesFold sheet rest (dictInsert p.2 values stpt.1, dictSetdefault p.2 values stpt.2)
    else sheetTablesFold sheet rest stpt

/-- Processing of one `(Data)` sheet inside `parse_picklist_reference`:
extract the right-hand lookup tables (first occurrence across sheets wins in
the accumulated tables) and auto-map qualifying left-hand columns to table
display names. -/
def parseDataSheet (acc : List (String × List (String × String)) × List (String × String))
    (sheet : List (List String)) :
    List (String × List (String × String)) × List (String × String) :=
  if sheet.length < 2 then acc
  else
    let row0 := sheet.getD 0 []
    let row1 := sheet.getD 1 []
    let table_positions := sheetTablePositions row0 row1
    if table_positions = [] then acc
    else
      let first_code_col := (table_positions.headD (0, "")).1
      let left_labels := (List.range first_code_col).filterMap (fun c =>
        let r0s := strStrip (row0.getD c "")
        let r1s := strStrip (row1.getD c "")
        if r0s ≠ "" ∧ strToLower r0s ≠ "nan" ∧ r1s ≠ "" ∧ strToLower r1s ≠ "nan" then
          some (c, r1s)
        else none)
      let stpt := sheetTablesFold sheet table_positions ([], acc.1)
      let table_name_lower := stpt.1.foldl (fun d t => dictInsert (strToLower t.1) t.1 d) []
      let new_mapping := left_labels.foldl (fun m c =>
        let tech_name := strStrip (row0.getD c.1 "")
        if tech_name ≠ "" ∧ strToLower tech_name ≠ "nan" then
          match List.lookup (strToLower c.2) table_name_lower with
          | some matched =>
            if matched ≠ "" ∧ _normalise_property_name tech_name ≠ "" then
              dictSetdefault (_normalise_property_name tech_name) matched m
            else m
          | none => m
        else m) acc.2
      (stpt.2, new_mapping)

/-- The Excel branch of `parse_picklist_reference`, applied to the decoded
workbook: all sheets whose name ends with `(Data)` are processed in order. -/
def parse_picklist_reference_excel (sheets : List (String × List (List String))) :
    List (String × List (String × String)) × List (String × String) :=
  (sheets.filter (fun s => strEndsWith s.1 "(Data)")).foldl
    (fun acc s => parseDataSheet acc s.2) ([], [])

/-- Specification-side definition (follows the spec's words for the data-row
scan): the distinct values of a list in first-seen order, later duplicates
collapsed. -/
def spec_distinct_first_seen : List String → List String
  | [] => []
  | v :: vs => v :: spec_distinct_first_seen (vs.filter (fun w => decide (w ≠ v)))
termination_by l => l.length
decreasing_by
  simp only [List.length_cons]
  exact Nat.lt_succ_of_le (List.length_filter_le _ _)

/-- The stripped values found at one column position across the data rows
(rows too short to have that column contribute nothing). -/
def colStream (idx : Nat) (rows : List (List String)) : List String :=
  rows.filterMap (fun r => (r.get? idx).map strStrip)

/-- The extraction loop replayed over the flat value stream of one column. -/
def collectLoop (max_values : Nat) : List String → List String → List String
  | seen, [] => seen
  | seen, v :: vs =>
    if v ≠ "" ∧ ¬ v ∈ seen then
      if max_values ≤ (seen ++ [v]).length then seen ++ [v]
      else collectLoop max_values (seen ++ [v]) vs
    else collectLoop max_values seen vs

/-- The new distinct non-blank values of a stream relative to already-seen
values, in first-seen order. -/
def newDistinct (seen : List String) : List String → List String
  | [] => []
  | v :: vs =>
    if v ≠ "" ∧ ¬ v ∈ seen then v :: newDistinct (seen ++ [v]) vs
    else newDistinct seen vs

def cellDefault : String × String × String × String × String := ("", "", "", "", "")

/-- A concrete two-entity index used to exercise the mirror-entity ranking:
the mirror `XPermissions` matches one header, the real `EmpJob` matches two. -/
def mirrorWitnessIndex : List (String × List (String × PropertyEntry)) :=
  [("XPermissions", [("a", ⟨"XPermissions", "a", "Edm.String", "", "", ""⟩)]),
   ("EmpJob", [("a", ⟨"EmpJob", "a", "Edm.String", "", "", ""⟩),
               ("b", ⟨"EmpJob", "b", "Edm.String", "", "", ""⟩)])]

theorem getD_map {α β : Type} (f : α → β) :
    ∀ (l : List α) (i : Nat), i < l.length → ∀ (da : α) (db : β),
      (l.map f).getD i db = f (l.getD i da) := by
  intro l
  induction l with
  | nil => intro i h; simp at h
  | cons a l ih =>
    intro i h da db
    cases i with
    | zero => rfl
    | succ n =>
      simp only [List.map_cons, List.getD_cons_succ]
      exact ih n (by simpa using Nat.lt_of_succ_lt_succ h) da db

theorem transformCellsAux_length (ep : Option (List (String × PropertyEntry)))
    (gl : List (String × List PropertyEntry)) (sk : Bool) (dr : Option (List (List String)))
    (rp : Option (List (String × String))) :
    ∀ (l : List String) (j : Nat), (transformCellsAux ep gl sk dr rp j l).length = l.length := by
  intro l
  induction l with
  | nil => intro j; rfl
  | cons p ps ih => intro j; simp only [transformCellsAux, List.length_cons, ih]

theorem transformCellsAux_getD (ep : Option (List (String × PropertyEntry)))
    (gl : List (String × List PropertyEntry)) (sk : Bool) (dr : Option (List (List String)))
    (rp : Option (List (String × String))) (cd : String × String × String × String × String) :
    ∀ (l : List String) (j i : Nat), i < l.length →
      (transformCellsAux ep gl sk dr rp j l).getD i cd =
        transformColumn ep gl sk dr rp (j + i) (l.getD i "") := by
  intro l
  induction l with
  | nil => intro j i h; simp at h
  | cons p ps ih =>
    intro j i h
    cases i with
    | zero => rfl
    | succ n =>
      simp only [transformCellsAux, List.getD_cons_succ]
      rw [ih (j + 1) n (by simpa using Nat.lt_of_succ_lt_succ h)]
      congr 1
      omega

theorem transformCells_getD (pn : List String) (gl : List (String × List PropertyEntry))
    (el : List (String × List (String × PropertyEntry))) (co : String) (sk : Bool)
    (dr : Option (List (List String))) (rp : Option (List (String × String))) (i : Nat)
    (hi : i < pn.length) :
    (transformCells pn gl el co sk dr rp).getD i cellDefault =
      transformColumn (matchedEntityProps pn el co) gl sk dr rp i (pn.getD i "") := by
  unfold transformCells
  rw [transformCellsAux_getD _ _ _ _ _ _ _ _ _ hi]
  simp

theorem transformCells_length (pn : List String) (gl : List (String × List PropertyEntry))
    (el : List (String × List (String × PropertyEntry))) (co : String) (sk : Bool)
    (dr : Option (List (List String))) (rp : Option (List (String × String))) :
    (transformCells pn gl el co sk dr rp).length = pn.length := by
  unfold transformCells
  rw [transformCellsAux_length]

theorem transform_rowAt_getD (fn : String) (pn ds : List String)
    (gl : List (String × List PropertyEntry)) (el : List (String × List (String × PropertyEntry)))
    (co : String) (sk : Bool) (dr : Option (List (List String)))
    (rp : Option (List (String × String))) (i : Nat) (hi : i < pn.length) :
    (rowAt (transform_template fn pn ds gl el co sk dr rp) 0).getD i "" = pn.getD i "" ∧
    (rowAt (transform_template fn pn ds gl el co sk dr rp) 1).getD i "" =
      (transformColumn (matchedEntityProps pn el co) gl sk dr rp i (pn.getD i "")).1 ∧
    (rowAt (transform_template fn pn ds gl el co sk dr rp) 2).getD i "" =
      (transformColumn (matchedEntityProps pn el co) gl sk dr rp i (pn.getD i "")).2.1 ∧
    (rowAt (transform_template fn pn ds gl el co sk dr rp) 3).getD i "" =
      (transformColumn (matchedEntityProps pn el co) gl sk dr rp i (pn.getD i "")).2.2.1 ∧
    (rowAt (transform_template fn pn ds gl el co sk dr rp) 4).getD i "" =
      (transformColumn (matchedEntityProps pn el co) gl sk dr rp i (pn.getD i "")).2.2.2.1 ∧
    (rowAt (transform_template fn pn ds gl el co sk dr rp) 5).getD i "" =
      (transformColumn (matchedEntityProps pn el co) gl sk dr rp i (pn.getD i "")).2.2.2.2 := by
  have hlen : i < (transformCells pn gl el co sk dr rp).length := by
    rw [transformCells_length]; exact hi
  refine ⟨rfl, ?_, ?_, ?_, ?_, ?_⟩
  all_goals
    first
    | (show ((transformCells pn gl el co sk dr rp).map _).getD i "" = _
       rw [getD_map _ _ _ hlen cellDefault ""]
       rw [transformCells_getD _ _ _ _ _ _ _ _ hi])

/-- C2: for every template (any header list, data rows, flag and override
combination), `transform_template` produces exactly six rows in the fixed
order Column Name, Column Label, Type, Mandatory, Max Length, Picklist
Values, and each of the six rows has exactly `len(headers)` values, aligned
positionally with the template's headers. -/
theorem enriched_template_shape (fn : String) (pn ds : List String)
    (gl : List (String × List PropertyEntry)) (el : List (String × List (String × PropertyEntry)))
    (co : String) (sk : Bool) (dr : Option (List (List String)))
    (rp : Option (List (String × String))) :
    (transform_template fn pn ds gl el co sk dr rp).1.length = 6 ∧
    (transform_template fn pn ds gl el co sk dr rp).1.map Prod.fst =
      ["Column Name", "Column Label", "Type", "Mandatory", "Max Length", "Picklist Values"] ∧
    (transform_template fn pn ds gl el co sk dr rp).1.map (fun r => r.2.length) =
      [pn.length, pn.length, pn.length, pn.length, pn.length, pn.length] := by
  refine ⟨rfl, rfl, ?_⟩
  simp [transform_template, transformCells_length]

/-- C1: identity-column overrides are unconditional: whenever the normalized
key of the header at position `i` is a recognized identity key
(`userid` / `personidexternal`), the Row Builder emits the fixed canonical
display label, type `string`, mandatory `true`, max length `100` and an
empty Picklist Values cell, regardless of the schema lookup tables, the
data rows and any picklist-value override. -/
theorem identity_columns_forced (fn : String) (pn ds : List String)
    (gl : List (String × List PropertyEntry)) (el : List (String × List (String × PropertyEntry)))
    (co : String) (sk : Bool) (dr : Option (List (List String)))
    (rp : Option (List (String × String))) (i : Nat) (hi : i < pn.length)
    (hid : _normalise_property_name (pn.getD i "") ∈ _IDENTITY_NORMS) :
    (rowAt (transform_template fn pn ds gl el co sk dr rp) 1).getD i "" =
      identityLabelFor (_normalise_property_name (pn.getD i "")) ∧
    (rowAt (transform_template fn pn ds gl el co sk dr rp) 2).getD i "" = "string" ∧
    (rowAt (transform_template fn pn ds gl el co sk dr rp) 3).getD i "" = "true" ∧
    (rowAt (transform_template fn pn ds gl el co sk dr rp) 4).getD i "" = "100" ∧
    (rowAt (transform_template fn pn ds gl el co sk dr rp) 5).getD i "" = "" := by
  obtain ⟨-, h1, h2, h3, h4, h5⟩ := transform_rowAt_getD fn pn ds gl el co sk dr rp i hi
  rw [h1, h2, h3, h4, h5]
  simp only [transformColumn]
  rw [if_pos hid]
  exact ⟨rfl, rfl, rfl, rfl, rfl⟩

/-- Witness for C1: a `User-ID` header whose schema entry claims type
`Edm.DateTime`, required `false` and a wrong label, together with a
picklist-value override for that key, is still forced to the canonical
identity metadata. -/
theorem identity_columns_forced_witness :
    (0 < (["User-ID"] : List String).length) ∧
    (_normalise_property_name ((["User-ID"] : List String).getD 0 "") ∈ _IDENTITY_NORMS) ∧
    identityLabelFor (_normalise_property_name ((["User-ID"] : List String).getD 0 "")) = "User ID" ∧
    ((rowAt (transform_template "t.csv" ["User-ID"] []
        [("userid", [⟨"EmpJob", "UserID", "Edm.DateTime", "false", "50", "Wrong Label"⟩])]
        [("EmpJob", [("userid", ⟨"EmpJob", "UserID", "Edm.DateTime", "false", "50", "Wrong Label"⟩)])]
        "" false none (some [("userid", "A, B")])) 1).getD 0 "" =
      identityLabelFor (_normalise_property_name ((["User-ID"] : List String).getD 0 "")) ∧
    (rowAt (transform_template "t.csv" ["User-ID"] []
        [("userid", [⟨"EmpJob", "UserID", "Edm.DateTime", "false", "50", "Wrong Label"⟩])]
        [("EmpJob", [("userid", ⟨"EmpJob", "UserID", "Edm.DateTime", "false", "50", "Wrong Label"⟩)])]
        "" false none (some [("userid", "A, B")])) 2).getD 0 "" = "string" ∧
    (rowAt (transform_template "t.csv" ["User-ID"] []
        [("userid", [⟨"EmpJob", "UserID", "Edm.DateTime", "false", "50", "Wrong Label"⟩])]
        [("EmpJob", [("userid", ⟨"EmpJob", "UserID", "Edm.DateTime", "false", "50", "Wrong Label"⟩)])]
        "" false none (some [("userid", "A, B")])) 3).getD 0 "" = "true" ∧
    (rowAt (transform_template "t.csv" ["User-ID"] []
        [("userid", [⟨"EmpJob", "UserID", "Edm.DateTime", "false", "50", "Wrong Label"⟩])]
        [("EmpJob", [("userid", ⟨"EmpJob", "UserID", "Edm.DateTime", "false", "50", "Wrong Label"⟩)])]
        "" false none (some [("userid", "A, B")])) 4).getD 0 "" = "100" ∧
    (rowAt (transform_template "t.csv" ["User-ID"] []
        [("userid", [⟨"EmpJob", "UserID", "Edm.DateTime", "false", "50", "Wrong Label"⟩])]
        [("EmpJob", [("userid", ⟨"EmpJob", "UserID", "Edm.DateTime", "false", "50", "Wrong Label"⟩)])]
        "" false none (some [("userid", "A, B")])) 5).getD 0 "" = "") :=
  ⟨by decide, by decide, by decide,
   identity_columns_forced "t.csv" ["User-ID"] []
     [("userid", [⟨"EmpJob", "UserID", "Edm.DateTime", "false", "50", "Wrong Label"⟩])]
     [("EmpJob", [("userid", ⟨"EmpJob", "UserID", "Edm.DateTime", "false", "50", "Wrong Label"⟩)])]
     "" false none (some [("userid", "A, B")]) 0 (by decide) (by decide)⟩

theorem transformColumn_picklist_cell (ep : Option (List (String × PropertyEntry)))
    (gl : List (String × List PropertyEntry)) (sk : Bool) (dr : Option (List (List String)))
    (rp : Option (List (String × String))) (i : Nat) (p : String)
    (hident : ¬ _normalise_property_name p ∈ _IDENTITY_NORMS)
    (hop : ¬ (_normalise_property_name p = _OPERATION_NORM ∧ sk = true)) :
    (transformColumn ep gl sk dr rp i p).2.2.2.2 =
      picklistCell (_normalise_property_name p) (resolvedTypeFor ep gl p) i dr rp := by
  cases h : lookup_property p ep gl with
  | none => simp [transformColumn, resolvedTypeFor, hident, hop, h]
  | some meta => simp [transformColumn, resolvedTypeFor, hident, hop, h]

/-- C5: for a column that the classifier marks as a picklist (not an identity
column, not a skipped operation column), when the caller-supplied
final-values override map contains the column's normalized key, the Picklist
Values cell equals the override string verbatim, no matter what the data
rows contain. -/
theorem picklist_override_priority (fn : String) (pn ds : List String)
    (gl : List (String × List PropertyEntry)) (el : List (String × List (String × PropertyEntry)))
    (co : String) (sk : Bool) (dr : Option (List (List String)))
    (rp_map : List (String × String)) (i : Nat) (hi : i < pn.length)
    (hident : ¬ _normalise_property_name (pn.getD i "") ∈ _IDENTITY_NORMS)
    (hop : ¬ (_normalise_property_name (pn.getD i "") = _OPERATION_NORM ∧ sk = true))
    (hpick : _is_picklist_column (_normalise_property_name (pn.getD i ""))
      (resolvedTypeFor (matchedEntityProps pn el co) gl (pn.getD i "")) = true)
    (v : String)
    (hv : List.lookup (_normalise_property_name (pn.getD i "")) rp_map = some v) :
    (rowAt (transform_template fn pn ds gl el co sk dr (some rp_map)) 5).getD i "" = v := by
  obtain ⟨-, -, -, -, -, h5⟩ := transform_rowAt_getD fn pn ds gl el co sk dr (some rp_map) i hi
  rw [h5, transformColumn_picklist_cell _ _ _ _ _ _ _ hident hop]
  simp only [picklistCell]
  rw [if_pos hpick, Option.some_bind, hv]

theorem bool_eq_false_of_not {b : Bool} (h : ¬ b = true) : b = false := by
  cases b <;> simp_all

theorem scoreGt_fst_le {s t : Nat × ℚ × Int} (h : scoreGt s t = true) : t.1 ≤ s.1 := by
  unfold scoreGt at h
  rw [decide_eq_true_eq] at h
  rcases h with h | ⟨h, -⟩
  · exact Nat.le_of_lt h
  · exact h.le

theorem scoreGt_fst_ge {s t : Nat × ℚ × Int} (h : scoreGt s t = false) : s.1 ≤ t.1 := by
  unfold scoreGt at h
  rw [decide_eq_false_iff_not] at h
  have h1 : ¬ t.1 < s.1 := fun hlt => h (Or.inl hlt)
  omega

theorem findBestStep_fst_mono (nc : List String) (co : String)
    (acc : Option String × Nat × ℚ × Int) (et : String × List (String × PropertyEntry)) :
    acc.2.1 ≤ (findBestStep nc co acc et).2.1 := by
  unfold findBestStep
  split_ifs with h1 h2
  · exact le_refl _
  · exact scoreGt_fst_le h2
  · exact le_refl _

theorem findBestStep_eff_le (nc : List String) (co : String)
    (acc : Option String × Nat × ℚ × Int) (et : String × List (String × PropertyEntry)) :
    effectiveMatchCount nc et ≤ (findBestStep nc co acc et).2.1 := by
  unfold findBestStep
  split_ifs with h1 h2
  · have he : effectiveMatchCount nc et = 0 := by
      unfold effectiveMatchCount
      split_ifs <;> omega
    omega
  · exact le_refl _
  · exact scoreGt_fst_ge (bool_eq_false_of_not h2)

theorem foldBest_fst_mono (nc : List String) (co : String) :
    ∀ (l : List (String × List (String × PropertyEntry))) (acc : Option String × Nat × ℚ × Int),
      acc.2.1 ≤ (l.foldl (findBestStep nc co) acc).2.1 := by
  intro l
  induction l with
  | nil => intro acc; exact le_refl _
  | cons e l ih => intro acc; exact le_trans (findBestStep_fst_mono nc co acc e) (ih _)

theorem foldBest_mem_le (nc : List String) (co : String) :
    ∀ (l : List (String × List (String × PropertyEntry))) (acc : Option String × Nat × ℚ × Int)
      (et : String × List (String × PropertyEntry)), et ∈ l →
      effectiveMatchCount nc et ≤ (l.foldl (findBestStep nc co) acc).2.1 := by
  intro l
  induction l with
  | nil => intro acc et h; simp at h
  | cons e l ih =>
    intro acc et h
    rcases List.mem_cons.mp h with rfl | h
    · exact le_trans (findBestStep_eff_le nc co acc et) (foldBest_fst_mono nc co l _)
    · exact ih _ et h

theorem foldBest_fst_cases (nc : List String) (co : String) :
    ∀ (l : List (String × List (String × PropertyEntry))) (acc : Option String × Nat × ℚ × Int),
      (l.foldl (findBestStep nc co) acc).2.1 = acc.2.1 ∨
      ∃ et ∈ l, (l.foldl (findBestStep nc co) acc).2.1 = effectiveMatchCount nc et := by
  intro l
  induction l with
  | nil => intro acc; exact Or.inl rfl
  | cons e l ih =>
    intro acc
    have hstep : (findBestStep nc co acc e).2.1 = acc.2.1 ∨
        (findBestStep nc co acc e).2.1 = effectiveMatchCount nc e := by
      unfold findBestStep
      split_ifs
      · exact Or.inl rfl
      · exact Or.inr rfl
      · exact Or.inl rfl
    rw [List.foldl_cons]
    rcases ih (findBestStep nc co acc e) with h | ⟨et, hm, h⟩
    · rcases hstep with hs | hs
      · exact Or.inl (h.trans hs)
      · exact Or.inr ⟨e, List.mem_cons_self e l, h.trans hs⟩
    · exact Or.inr ⟨et, List.mem_cons_of_mem e hm, h⟩

theorem foldBest_isSome (nc : List String) (co : String) :
    ∀ (l : List (String × List (String × PropertyEntry))) (acc : Option String × Nat × ℚ × Int),
      (0 < acc.2.1 → acc.1.isSome = true) →
      (0 < (l.foldl (findBestStep nc co) acc).2.1 →
        (l.foldl (findBestStep nc co) acc).1.isSome = true) := by
  intro l
  induction l with
  | nil => intro acc h; exact h
  | cons e l ih =>
    intro acc h
    apply ih
    unfold findBestStep
    split_ifs with h1 h2
    · exact h
    · intro _; rfl
    · exact h

theorem foldBest_name_eff (nc : List String) (co : String) (M : String) (effM : Nat) :
    ∀ (l : List (String × List (String × PropertyEntry))) (acc : Option String × Nat × ℚ × Int),
      (∀ et ∈ l, et.1 = M → effectiveMatchCount nc et = effM) →
      (acc.1 = some M → acc.2.1 = effM) →
      ((l.foldl (findBestStep nc co) acc).1 = some M →
        (l.foldl (findBestStep nc co) acc).2.1 = effM) := by
  intro l
  induction l with
  | nil => intro acc _ h; exact h
  | cons e l ih =>
    intro acc hl hacc
    apply ih _ (fun et hm => hl et (List.mem_cons_of_mem e hm))
    unfold findBestStep
    split_ifs with h1 h2
    · exact hacc
    · intro hname
      have he : e.1 = M := by simpa using hname
      exact hl e (List.mem_cons_self e l) he
    · exact hacc

theorem nodup_keys_eq {α : Type} :
    ∀ (l : List (String × α)), (l.map Prod.fst).Nodup →
      ∀ p q : String × α, p ∈ l → q ∈ l → p.1 = q.1 → p = q := by
  intro l
  induction l with
  | nil => intro _ p q hp; simp at hp
  | cons a l ih =>
    intro hnd p q hp hq hpq
    simp only [List.map_cons, List.nodup_cons] at hnd
    rcases List.mem_cons.mp hp with rfl | hp' <;> rcases List.mem_cons.mp hq with rfl | hq'
    · rfl
    · exact absurd (hpq ▸ List.mem_map_of_mem Prod.fst hq') hnd.1
    · exact absurd (hpq ▸ List.mem_map_of_mem Prod.fst hp') hnd.1
    · exact ih hnd.2 p q hp' hq' hpq

/-- C3 counterexample: a template whose only matching entity type is a
mirror-suffix entity with raw match count 1 has a non-empty intersection with
that entity's key set, yet `find_best_entity_type` returns `none` (the mirror
penalty floors the count to 0), refuting the claimed equivalence with
non-empty intersection. -/
theorem entity_matcher_counterexample :
    matchCount (normHeaderKeys ["userid"])
      [("userid", (⟨"XPermissions", "userid", "Edm.String", "", "", ""⟩ : PropertyEntry))] = 1 ∧
    find_best_entity_type ["userid"]
      [("XPermissions", [("userid", ⟨"XPermissions", "userid", "Edm.String", "", "", ""⟩)])] ""
      = none := by
  constructor
  · decide
  · decide

/-- C3 (amended): `find_best_entity_type` returns some entity type exactly
when at least one entity type's effective match count — the size of the
intersection of its normalized property-key set with the template's
normalized header-key set, halved by integer floor division for
mirror-suffix entities — is positive, and returns none otherwise. -/
theorem entity_matcher_some_iff (pn : List String)
    (el : List (String × List (String × PropertyEntry))) (co : String) :
    find_best_entity_type pn el co ≠ none ↔
      ∃ et ∈ el, 0 < effectiveMatchCount (normHeaderKeys pn) et := by
  simp only [find_best_entity_type]
  constructor
  · intro h
    by_cases h0 : 0 < (el.foldl (findBestStep (normHeaderKeys pn) co)
        (none, 0, (0 : ℚ), (0 : Int))).2.1
    · rcases foldBest_fst_cases (normHeaderKeys pn) co el (none, 0, (0 : ℚ), (0 : Int)) with
        hc | ⟨et, hm, hc⟩
      · rw [hc] at h0
        simp at h0
      · exact ⟨et, hm, hc ▸ h0⟩
    · rw [if_neg h0] at h
      exact absurd rfl h
  · rintro ⟨et, hm, hpos⟩
    have hle := foldBest_mem_le (normHeaderKeys pn) co el (none, 0, (0 : ℚ), (0 : Int)) et hm
    have h0 : 0 < (el.foldl (findBestStep (normHeaderKeys pn) co)
        (none, 0, (0 : ℚ), (0 : Int))).2.1 := lt_of_lt_of_le hpos hle
    rw [if_pos h0]
    have hsome := foldBest_isSome (normHeaderKeys pn) co el (none, 0, (0 : ℚ), (0 : Int))
      (by intro hx; simp at hx) h0
    exact Option.isSome_iff_ne_none.mp hsome

/-- C6: in an entity index with unique entity names, a mirror-suffix entity M
is never returned when a non-mirror entity N has a strictly greater raw match
count: M's halved match count stays strictly below N's, so N strictly
outranks M on the primary ordering key. -/
theorem mirror_never_outranks (pn : List String)
    (el : List (String × List (String × PropertyEntry))) (co : String)
    (M_name N_name : String) (M_props N_props : List (String × PropertyEntry))
    (hnodup : (el.map Prod.fst).Nodup)
    (hM : (M_name, M_props) ∈ el) (hN : (N_name, N_props) ∈ el)
    (hMm : isMirrorEntity M_name = true) (hNm : isMirrorEntity N_name = false)
    (hlt : matchCount (normHeaderKeys pn) M_props < matchCount (normHeaderKeys pn) N_props) :
    find_best_entity_type pn el co ≠ some M_name := by
  intro hres
  simp only [find_best_entity_type] at hres
  by_cases h0 : 0 < (el.foldl (findBestStep (normHeaderKeys pn) co)
      (none, 0, (0 : ℚ), (0 : Int))).2.1
  · rw [if_pos h0] at hres
    have hname := foldBest_name_eff (normHeaderKeys pn) co M_name
      (effectiveMatchCount (normHeaderKeys pn) (M_name, M_props)) el
      (none, 0, (0 : ℚ), (0 : Int))
      (by
        intro et hm he
        have := nodup_keys_eq el hnodup et (M_name, M_props) hm hM (by simpa using he)
        rw [this])
      (by intro hx; simp at hx) hres
    have hNle := foldBest_mem_le (normHeaderKeys pn) co el (none, 0, (0 : ℚ), (0 : Int))
      (N_name, N_props) hN
    have heM : effectiveMatchCount (normHeaderKeys pn) (M_name, M_props) =
        matchCount (normHeaderKeys pn) M_props / 2 := by
      simp [effectiveMatchCount, hMm]
    have heN : effectiveMatchCount (normHeaderKeys pn) (N_name, N_props) =
        matchCount (normHeaderKeys pn) N_props := by
      simp [effectiveMatchCount, hNm]
    have hdiv : matchCount (normHeaderKeys pn) M_props / 2 ≤
        matchCount (normHeaderKeys pn) M_props := Nat.div_le_self _ _
    omega
  · rw [if_neg h0] at hres
    exact Option.noConfusion hres

/-- Witness for C6: a mirror entity `XPermissions` matching one header is
outranked by the non-mirror `EmpJob` matching two headers. -/
theorem mirror_never_outranks_witness :
    (mirrorWitnessIndex.map Prod.fst).Nodup ∧
    ("XPermissions", [("a", (⟨"XPermissions", "a", "Edm.String", "", "", ""⟩ : PropertyEntry))]) ∈
      mirrorWitnessIndex ∧
    isMirrorEntity "XPermissions" = true ∧
    isMirrorEntity "EmpJob" = false ∧
    matchCount (normHeaderKeys ["a", "b"])
        [("a", (⟨"XPermissions", "a", "Edm.String", "", "", ""⟩ : PropertyEntry))] <
      matchCount (normHeaderKeys ["a", "b"])
        [("a", (⟨"EmpJob", "a", "Edm.String", "", "", ""⟩ : PropertyEntry)),
         ("b", (⟨"EmpJob", "b", "Edm.String", "", "", ""⟩ : PropertyEntry))] ∧
    find_best_entity_type ["a", "b"] mirrorWitnessIndex "" ≠ some "XPermissions" :=
  ⟨by decide, by decide, by decide, by decide, by decide,
   mirror_never_outranks ["a", "b"] mirrorWitnessIndex ""
     "XPermissions" "EmpJob"
     [("a", ⟨"XPermissions", "a", "Edm.String", "", "", ""⟩)]
     [("a", ⟨"EmpJob", "a", "Edm.String", "", "", ""⟩),
      ("b", ⟨"EmpJob", "b", "Edm.String", "", "", ""⟩)]
     (by decide) (by decide) (by decide) (by decide) (by decide) (by decide)⟩

theorem colStream_eq (idx : Nat) (rows : List (List String)) :
    colStream idx rows = (rows.filterMap (fun r => r.get? idx)).map strStrip := by
  simp [colStream, List.map_filterMap]

theorem extractLoop_eq_collectLoop (idx cap : Nat) :
    ∀ (rows : List (List String)) (seen : List String),
      extractLoop idx cap rows seen = collectLoop cap seen (colStream idx rows) := by
  intro rows
  induction rows with
  | nil => intro seen; rfl
  | cons row rest ih =>
    intro seen
    cases hrow : row.get? idx with
    | none =>
      have hcs : colStream idx (row :: rest) = colStream idx rest := by
        simp only [colStream, List.filterMap_cons, hrow, Option.map_none']
      rw [hcs]
      simp only [extractLoop, hrow]
      exact ih seen
    | some cell =>
      have hcs : colStream idx (row :: rest) = strStrip cell :: colStream idx rest := by
        simp only [colStream, List.filterMap_cons, hrow, Option.map_some']
      rw [hcs]
      simp only [extractLoop, hrow, collectLoop]
      by_cases hc : strStrip cell ≠ "" ∧ ¬ strStrip cell ∈ seen
      · rw [if_pos hc, if_pos hc]
        by_cases hcap : cap ≤ (seen ++ [strStrip cell]).length
        · rw [if_pos hcap, if_pos hcap]
        · rw [if_neg hcap, if_neg hcap, ih]
      · rw [if_neg hc, if_neg hc, ih]

theorem collectLoop_eq (cap : Nat) :
    ∀ (vs seen : List String), seen.length < cap →
      collectLoop cap seen vs = seen ++ (newDistinct seen vs).take (cap - seen.length) := by
  intro vs
  induction vs with
  | nil => intro seen h; simp [collectLoop, newDistinct]
  | cons v vs ih =>
    intro seen h
    simp only [collectLoop, newDistinct]
    by_cases hc : v ≠ "" ∧ ¬ v ∈ seen
    · rw [if_pos hc, if_pos hc]
      by_cases hcap : cap ≤ (seen ++ [v]).length
      · rw [if_pos hcap]
        have h1 : cap - seen.length = 1 := by
          simp only [List.length_append, List.length_cons, List.length_nil] at hcap
          omega
        rw [h1, List.take_succ_cons, List.take_zero]
      · rw [if_neg hcap]
        rw [ih (seen ++ [v]) (by simp only [List.length_append, List.length_cons, List.length_nil] at hcap ⊢; omega)]
        have h2 : cap - seen.length = (cap - (seen ++ [v]).length) + 1 := by
          simp only [List.length_append, List.length_cons, List.length_nil] at hcap ⊢
          omega
        rw [h2, List.take_succ_cons, List.append_assoc]
        rfl
    · rw [if_neg hc, if_neg hc]
      exact ih seen h

theorem newDistinct_eq_spec :
    ∀ (vs seen : List String),
      newDistinct seen vs =
        spec_distinct_first_seen (vs.filter (fun v => decide (v ≠ "" ∧ ¬ v ∈ seen))) := by
  intro vs
  induction vs with
  | nil => intro seen; simp [newDistinct, spec_distinct_first_seen]
  | cons v vs ih =>
    intro seen
    by_cases hc : v ≠ "" ∧ ¬ v ∈ seen
    · have hd : decide (v ≠ "" ∧ ¬ v ∈ seen) = true := decide_eq_true hc
      simp only [newDistinct, List.filter_cons, hd, if_pos hc, if_true]
      simp only [spec_distinct_first_seen]
      congr 1
      rw [ih (seen ++ [v])]
      congr 1
      rw [List.filter_filter]
      apply List.filter_congr
      intro x _
      by_cases h1 : x = v <;> by_cases h2 : x = "" <;> by_cases h3 : x ∈ seen <;>
        simp [List.mem_append, h1, h2, h3]
    · have hd : decide (v ≠ "" ∧ ¬ v ∈ seen) = false := decide_eq_false hc
      simp only [newDistinct, List.filter_cons, hd, if_neg hc, Bool.false_eq_true, if_false]
      exact ih seen

theorem extractLoop_ragged (idx cap : Nat) :
    ∀ (rows : List (List String)) (seen : List String),
      extractLoop idx cap rows seen =
        extractLoop idx cap (rows.filter (fun r => decide (idx < r.length))) seen := by
  intro rows
  induction rows with
  | nil => intro seen; rfl
  | cons row rest ih =>
    intro seen
    by_cases hlt : idx < row.length
    · have hkeep : decide (idx < row.length) = true := decide_eq_true hlt
      simp only [List.filter_cons, hkeep, if_true]
      cases hrow : row.get? idx with
      | none =>
        rw [List.get?_eq_none] at hrow
        omega
      | some cell =>
        simp only [extractLoop, hrow]
        by_cases hc : strStrip cell ≠ "" ∧ ¬ strStrip cell ∈ seen
        · rw [if_pos hc, if_pos hc]
          by_cases hcap : cap ≤ (seen ++ [strStrip cell]).length
          · rw [if_pos hcap, if_pos hcap]
          · rw [if_neg hcap, if_neg hcap, ih]
        · rw [if_neg hc, if_neg hc, ih]
    · have hdrop : decide (idx < row.length) = false := decide_eq_false hlt
      simp only [List.filter_cons, hdrop, Bool.false_eq_true, if_false]
      have hrow : row.get? idx = none := List.get?_eq_none.mpr (by omega)
      simp only [extractLoop, hrow]
      exact ih seen

/-- C8: `_extract_picklist_values` returns the comma-join (separator `", "`)
of the distinct non-blank stripped values found at the column position, in
first-seen row order with later duplicates collapsed, capped at
`_MAX_PICKLIST_VALUES` (20) with values beyond the cap silently dropped. -/
theorem extract_picklist_values_spec (idx : Nat) (rows : List (List String)) :
    _extract_picklist_values idx rows _MAX_PICKLIST_VALUES =
      String.intercalate ", "
        ((spec_distinct_first_seen
          (((rows.filterMap (fun r => r.get? idx)).map strStrip).filter
            (fun v => decide (v ≠ "")))).take _MAX_PICKLIST_VALUES) := by
  unfold _extract_picklist_values
  rw [extractLoop_eq_collectLoop]
  rw [collectLoop_eq _ _ _ (by simp [_MAX_PICKLIST_VALUES])]
  rw [newDistinct_eq_spec]
  simp only [List.length_nil, Nat.sub_zero, List.nil_append]
  have hf : List.filter (fun v => decide (v ≠ "" ∧ ¬ v ∈ ([] : List String)))
      (colStream idx rows) = List.filter (fun v => decide (v ≠ "")) (colStream idx rows) :=
    List.filter_congr (by intro x _; exact decide_eq_decide.mpr (by simp))
  rw [hf, colStream_eq]

/-- C10: the picklist value scan only reads a cell when the column index is
strictly below the row's length — rows too short for the column are skipped,
so the scan result is unchanged when those rows are removed — and
`transform_template`'s Picklist Values row is total, with one value per
header even when data rows are ragged. -/
theorem ragged_rows_safe (idx : Nat) (rows : List (List String)) (fn : String)
    (pn ds : List String) (gl : List (String × List PropertyEntry))
    (el : List (String × List (String × PropertyEntry))) (co : String) (sk : Bool)
    (dr : Option (List (List String))) (rp : Option (List (String × String))) :
    _extract_picklist_values idx rows _MAX_PICKLIST_VALUES =
      _extract_picklist_values idx (rows.filter (fun r => decide (idx < r.length)))
        _MAX_PICKLIST_VALUES ∧
    (rowAt (transform_template fn pn ds gl el co sk dr rp) 5).length = pn.length := by
  constructor
  · unfold _extract_picklist_values
    rw [extractLoop_ragged]
  · show ((transformCells pn gl el co sk dr rp).map _).length = pn.length
    rw [List.length_map, transformCells_length]

/-- C7: the Picklist Classifier rule table: true for the enumerated tag
`picklist`; false for date, time, float, integer and boolean; for `string`,
false when the key contains a never-enumerated substring (this override wins
even when a likely-enumerated substring is present), true when it contains a
likely-enumerated substring and no never-enumerated one, false otherwise;
false for every other or unresolved friendly type. -/
theorem picklist_classifier_rules (k ft : String) :
    (_is_picklist_column k "picklist" = true) ∧
    ((ft = "date" ∨ ft = "time" ∨ ft = "float" ∨ ft = "integer" ∨ ft = "boolean") →
      _is_picklist_column k ft = false) ∧
    ((∃ kw ∈ _NON_PICKLIST_SUBSTRINGS, strContains k kw = true) →
      _is_picklist_column k "string" = false) ∧
    ((∀ kw ∈ _NON_PICKLIST_SUBSTRINGS, strContains k kw = false) →
      (∃ kw ∈ _PICKLIST_SUBSTRINGS, strContains k kw = true) →
      _is_picklist_column k "string" = true) ∧
    ((∀ kw ∈ _NON_PICKLIST_SUBSTRINGS, strContains k kw = false) →
      (∀ kw ∈ _PICKLIST_SUBSTRINGS, strContains k kw = false) →
      _is_picklist_column k "string" = false) ∧
    (ft ≠ "picklist" → ft ≠ "date" → ft ≠ "time" → ft ≠ "float" → ft ≠ "integer" →
      ft ≠ "boolean" → ft ≠ "string" → _is_picklist_column k ft = false) := by
  refine ⟨by simp [_is_picklist_column], ?_, ?_, ?_, ?_, ?_⟩
  · rintro (rfl | rfl | rfl | rfl | rfl) <;> simp [_is_picklist_column]
  · rintro ⟨kw, hkw, hc⟩
    have hany : _NON_PICKLIST_SUBSTRINGS.any (fun kw => strContains k kw) = true :=
      List.any_eq_true.mpr ⟨kw, hkw, hc⟩
    simp [_is_picklist_column, hany]
  · intro h1 h2
    obtain ⟨kw, hkw, hc⟩ := h2
    have hnon : _NON_PICKLIST_SUBSTRINGS.any (fun kw => strContains k kw) = false := by
      rw [List.any_eq_false]
      intro x hx
      simp [h1 x hx]
    have hpick : _PICKLIST_SUBSTRINGS.any (fun kw => strContains k kw) = true :=
      List.any_eq_true.mpr ⟨kw, hkw, hc⟩
    simp [_is_picklist_column, hnon, hpick]
  · intro h1 h2
    have hnon : _NON_PICKLIST_SUBSTRINGS.any (fun kw => strContains k kw) = false := by
      rw [List.any_eq_false]
      intro x hx
      simp [h1 x hx]
    have hpick : _PICKLIST_SUBSTRINGS.any (fun kw => strContains k kw) = false := by
      rw [List.any_eq_false]
      intro x hx
      simp [h2 x hx]
    simp [_is_picklist_column, hnon, hpick]
  · intro hp hd htm hf hint hb hs
    simp [_is_picklist_column, hp, hd, htm, hf, hint, hb, hs]

/-- Witness for C7: one concrete instance of each classifier rule, including
the never-enumerated override beating a present likely-enumerated substring
(`maritalstatuscity`). -/
theorem picklist_classifier_rules_witness :
    _is_picklist_column "gender" "picklist" = true ∧
    _is_picklist_column "gender" "date" = false ∧
    _is_picklist_column "maritalstatuscity" "string" = false ∧
    _is_picklist_column "gender" "string" = true ∧
    _is_picklist_column "employeenote" "string" = false ∧
    _is_picklist_column "gender" "Edm.Guid" = false :=
  ⟨(picklist_classifier_rules "gender" "x").1,
   (picklist_classifier_rules "gender" "date").2.1 (Or.inl rfl),
   (picklist_classifier_rules "maritalstatuscity" "x").2.2.1 ⟨"city", by decide, by decide⟩,
   (picklist_classifier_rules "gender" "x").2.2.2.1 (by decide) ⟨"gender", by decide, by decide⟩,
   (picklist_classifier_rules "employeenote" "x").2.2.2.2.1 (by decide) (by decide),
   (picklist_classifier_rules "gender" "Edm.Guid").2.2.2.2.2 (by decide) (by decide)
     (by decide) (by decide) (by decide) (by decide) (by decide)⟩

theorem transformColumn_mandatory (ep : Option (List (String × PropertyEntry)))
    (gl : List (String × List PropertyEntry)) (sk : Bool) (dr : Option (List (List String)))
    (rp : Option (List (String × String))) (i : Nat) (p : String)
    (hident : ¬ _normalise_property_name p ∈ _IDENTITY_NORMS)
    (hop : ¬ (_normalise_property_name p = _OPERATION_NORM ∧ sk = true))
    (meta : PropertyEntry) (hmeta : lookup_property p ep gl = some meta) :
    (transformColumn ep gl sk dr rp i p).2.2.1 =
      if _is_duration_column (_normalise_property_name p) = true then
        (if meta.required = "true" then meta.required else "false")
      else
        (if meta.required ≠ "" then meta.required else "false") := by
  simp only [transformColumn]
  rw [if_neg hident, if_neg hop, hmeta]

/-- C4 counterexample: a resolved, non-identity, non-operation, non-duration
column whose schema entry stores an empty required flag gets Mandatory
`"false"`, not the empty required flag as stored, refuting the claim that an
empty required flag yields an empty Mandatory cell. -/
theorem mandatory_empty_required_counterexample :
    PropertyEntry.required ⟨"EmpJob", "Foo", "Edm.String", "", "", ""⟩ = "" ∧
    (rowAt (transform_template "t.csv" ["Foo"] []
      [("foo", [⟨"EmpJob", "Foo", "Edm.String", "", "", ""⟩])] [] "" false none none) 3).getD 0 ""
      = "false" ∧
    ¬ (rowAt (transform_template "t.csv" ["Foo"] []
      [("foo", [⟨"EmpJob", "Foo", "Edm.String", "", "", ""⟩])] [] "" false none none) 3).getD 0 ""
      = "" := by
  refine ⟨rfl, by decide, by decide⟩

/-- C4 (amended): for a resolved column that is not an identity column and
not a skipped operation column, the Mandatory cell equals the schema's
required flag when that flag is non-empty and `"false"` when it is empty;
for duration/period-keyword columns the Mandatory cell is `"false"` unless
the required flag is exactly `"true"`. -/
theorem mandatory_cell_rule (fn : String) (pn ds : List String)
    (gl : List (String × List PropertyEntry)) (el : List (String × List (String × PropertyEntry)))
    (co : String) (sk : Bool) (dr : Option (List (List String)))
    (rp : Option (List (String × String))) (i : Nat) (hi : i < pn.length)
    (hident : ¬ _normalise_property_name (pn.getD i "") ∈ _IDENTITY_NORMS)
    (hop : ¬ (_normalise_property_name (pn.getD i "") = _OPERATION_NORM ∧ sk = true))
    (meta : PropertyEntry)
    (hmeta : lookup_property (pn.getD i "") (matchedEntityProps pn el co) gl = some meta) :
    (_is_duration_column (_normalise_property_name (pn.getD i "")) = false →
      (rowAt (transform_template fn pn ds gl el co sk dr rp) 3).getD i "" =
        (if meta.required = "" then "false" else meta.required)) ∧
    (_is_duration_column (_normalise_property_name (pn.getD i "")) = true →
      (rowAt (transform_template fn pn ds gl el co sk dr rp) 3).getD i "" =
        (if meta.required = "true" then "true" else "false")) := by
  obtain ⟨-, -, -, h3, -, -⟩ := transform_rowAt_getD fn pn ds gl el co sk dr rp i hi
  rw [h3, transformColumn_mandatory _ _ _ _ _ _ _ hident hop meta hmeta]
  constructor
  · intro hd
    rw [hd]
    by_cases hr : meta.required = "" <;> simp [hr]
  · intro hd
    rw [hd]
    by_cases hr : meta.required = "true" <;> simp [hr]

/-- Witness for C4: a non-duration column with required `"true"` keeps
`"true"`; the same theorem also covers a duration column (`Probation-Period`)
with an empty required flag, forced to `"false"`. -/
theorem mandatory_cell_rule_witness :
    (0 < (["Foo", "Probation-Period"] : List String).length) ∧
    (¬ _normalise_property_name ((["Foo", "Probation-Period"] : List String).getD 0 "") ∈ _IDENTITY_NORMS) ∧
    (lookup_property ((["Foo", "Probation-Period"] : List String).getD 0 "")
      (matchedEntityProps ["Foo", "Probation-Period"] [] "")
      [("foo", [⟨"EmpJob", "Foo", "Edm.String", "true", "20", "Foo Label"⟩]),
       ("probationperiod", [⟨"EmpJob", "ProbationPeriod", "Edm.String", "", "", ""⟩])] =
      some ⟨"EmpJob", "Foo", "Edm.String", "true", "20", "Foo Label"⟩) ∧
    (_is_duration_column (_normalise_property_name ((["Foo", "Probation-Period"] : List String).getD 0 "")) = false) ∧
    ((rowAt (transform_template "t.csv" ["Foo", "Probation-Period"] []
      [("foo", [⟨"EmpJob", "Foo", "Edm.String", "true", "20", "Foo Label"⟩]),
       ("probationperiod", [⟨"EmpJob", "ProbationPeriod", "Edm.String", "", "", ""⟩])]
      [] "" false none none) 3).getD 0 "" =
      (if PropertyEntry.required ⟨"EmpJob", "Foo", "Edm.String", "true", "20", "Foo Label"⟩ = ""
       then "false"
       else PropertyEntry.required ⟨"EmpJob", "Foo", "Edm.String", "true", "20", "Foo Label"⟩)) ∧
    (1 < (["Foo", "Probation-Period"] : List String).length) ∧
    (_is_duration_column (_normalise_property_name ((["Foo", "Probation-Period"] : List String).getD 1 "")) = true) ∧
    ((rowAt (transform_template "t.csv" ["Foo", "Probation-Period"] []
      [("foo", [⟨"EmpJob", "Foo", "Edm.String", "true", "20", "Foo Label"⟩]),
       ("probationperiod", [⟨"EmpJob", "ProbationPeriod", "Edm.String", "", "", ""⟩])]
      [] "" false none none) 3).getD 1 "" = "false") :=
  ⟨by decide, by decide, by decide, by decide,
   (mandatory_cell_rule "t.csv" ["Foo", "Probation-Period"] []
     [("foo", [⟨"EmpJob", "Foo", "Edm.String", "true", "20", "Foo Label"⟩]),
      ("probationperiod", [⟨"EmpJob", "ProbationPeriod", "Edm.String", "", "", ""⟩])]
     [] "" false none none 0 (by decide) (by decide) (by decide)
     ⟨"EmpJob", "Foo", "Edm.String", "true", "20", "Foo Label"⟩ (by decide)).1 (by decide),
   by decide, by decide,
   (by
     have h := (mandatory_cell_rule "t.csv" ["Foo", "Probation-Period"] []
       [("foo", [⟨"EmpJob", "Foo", "Edm.String", "true", "20", "Foo Label"⟩]),
        ("probationperiod", [⟨"EmpJob", "ProbationPeriod", "Edm.String", "", "", ""⟩])]
       [] "" false none none 1 (by decide) (by decide) (by decide)
       ⟨"EmpJob", "ProbationPeriod", "Edm.String", "", "", ""⟩ (by decide)).2 (by decide)
     simpa using h)⟩

theorem mem_dictSetdefault {α : Type} (k : String) (v : α) (d : List (String × α))
    (q : String × α) (h : q ∈ dictSetdefault k v d) : q ∈ d ∨ q = (k, v) := by
  unfold dictSetdefault at h
  cases hl : List.lookup k d with
  | some w =>
    rw [hl] at h
    exact Or.inl h
  | none =>
    rw [hl] at h
    rcases List.mem_append.mp h with h' | h'
    · exact Or.inl h'
    · simp at h'
      exact Or.inr h'

theorem foldl_preserve {α β : Type} (f : α → β → α) (P : α → Prop)
    (hf : ∀ a b, P a → P (f a b)) : ∀ (l : List β) (a : α), P a → P (l.foldl f a) := by
  intro l
  induction l with
  | nil => intro a h; exact h
  | cons b l ih => intro a h; exact ih _ (hf a b h)

theorem sheetTablesFold_preserve (sheet : List (List String)) :
    ∀ (positions : List (Nat × String))
      (stpt : List (String × List (String × String)) × List (String × List (String × String))),
      (∀ q ∈ stpt.2, q.2 ≠ ([] : List (String × String))) →
      ∀ q ∈ (sheetTablesFold sheet positions stpt).2, q.2 ≠ ([] : List (String × String)) := by
  intro positions
  induction positions with
  | nil => intro stpt h; exact h
  | cons p rest ih =>
    intro stpt h
    simp only [sheetTablesFold]
    by_cases hv : tableValuesAt sheet p.1 ≠ []
    · rw [if_pos hv]
      refine ih _ ?_
      intro r hr
      rcases mem_dictSetdefault _ _ _ _ hr with h' | h'
      · exact h r h'
      · rw [h']
        exact hv
    · rw [if_neg hv]
      exact ih _ h

theorem parseDataSheet_preserve (sheet : List (List String))
    (acc : List (String × List (String × String)) × List (String × String))
    (h : ∀ q ∈ acc.1, q.2 ≠ ([] : List (String × String))) :
    ∀ q ∈ (parseDataSheet acc sheet).1, q.2 ≠ ([] : List (String × String)) := by
  intro q hq
  simp only [parseDataSheet] at hq
  split_ifs at hq with h1 h2
  · exact h q hq
  · exact h q hq
  · exact sheetTablesFold_preserve sheet _ ([], acc.1) h q hq

/-- C9: `parse_picklist_reference` never maps a table name to an empty value
list: a CSV grid yielding zero (code, label) pairs, and a workbook lookup
table whose data rows yield zero pairs, are absent from the returned
picklist-tables mapping rather than present with an empty sequence. -/
theorem picklist_tables_never_empty :
    (∀ (base : String) (grid : List (List String)) (p : String × List (String × String)),
      p ∈ (parse_picklist_reference_csv base grid).1 → p.2 ≠ []) ∧
    (∀ (sheets : List (String × List (List String))) (p : String × List (String × String)),
      p ∈ (parse_picklist_reference_excel sheets).1 → p.2 ≠ []) := by
  constructor
  · intro base grid p hp
    simp only [parse_picklist_reference_csv] at hp
    split_ifs at hp <;>
      first
      | exact absurd hp (List.not_mem_nil p)
      | (rw [List.mem_singleton] at hp; subst hp;
         simpa using ‹csvPicklistValues grid ≠ []›)
  · intro sheets p hp
    simp only [parse_picklist_reference_excel] at hp
    exact foldl_preserve (fun acc (s : String × List (List String)) => parseDataSheet acc s.2)
      (fun acc => ∀ q ∈ acc.1, q.2 ≠ ([] : List (String × String)))
      (fun acc s hP => parseDataSheet_preserve s.2 acc hP)
      _ ([], []) (by intro q hq; simp at hq) p hp

/-- Witness for C9: a one-row CSV grid produces the table
`Gender ↦ [(M, Male)]`, whose value list is non-empty. -/
theorem picklist_tables_never_empty_witness :
    (("Gender", [("M", "Male")]) ∈ (parse_picklist_reference_csv "Gender" [["M", "Male"]]).1) ∧
    ("Gender", [("M", "Male")]).2 ≠ ([] : List (String × String)) :=
  ⟨by decide,
   picklist_tables_never_empty.1 "Gender" [["M", "Male"]] ("Gender", [("M", "Male")]) (by decide)⟩

/-- Witness for C5: a `Gender` column classified as picklist via the keyword
upgrade, with an override entry and data rows holding different values,
yields the override string verbatim. -/
theorem picklist_override_priority_witness :
    (0 < (["Gender"] : List String).length) ∧
    (¬ _normalise_property_name ((["Gender"] : List String).getD 0 "") ∈ _IDENTITY_NORMS) ∧
    (¬ (_normalise_property_name ((["Gender"] : List String).getD 0 "") = _OPERATION_NORM ∧ false = true)) ∧
    (_is_picklist_column (_normalise_property_name ((["Gender"] : List String).getD 0 ""))
      (resolvedTypeFor (matchedEntityProps ["Gender"] [] "")
        [("gender", [⟨"EmpJob", "Gender", "Edm.String", "", "", ""⟩])]
        ((["Gender"] : List String).getD 0 "")) = true) ∧
    (List.lookup (_normalise_property_name ((["Gender"] : List String).getD 0 ""))
      [("gender", "Male, Female")] = some "Male, Female") ∧
    (rowAt (transform_template "t.csv" ["Gender"] []
      [("gender", [⟨"EmpJob", "Gender", "Edm.String", "", "", ""⟩])] [] "" false
      (some [["Other1"], ["Other2"]]) (some [("gender", "Male, Female")])) 5).getD 0 "" =
      "Male, Female" :=
  ⟨by decide, by decide, by decide, by decide, by decide,
   picklist_override_priority "t.csv" ["Gender"] []
     [("gender", [⟨"EmpJob", "Gender", "Edm.String", "", "", ""⟩])] [] "" false
     (some [["Other1"], ["Other2"]]) [("gender", "Male, Female")] 0 (by decide)
     (by decide) (by decide) (by decide) "Male, Female" (by decide)⟩
